import Mathlib

/-!
Shallow embedding of the `bad-server` repository's order/customer/upload
controllers (src/backend/src/controllers/order.ts,
src/backend/src/controllers/upload.ts, src/backend/src/middlewares/file.ts,
and the customers controller shipped as src/unnamed/part_000), together with
proofs checking the natural-language specification against the code.

JavaScript numbers arriving from the query string are modelled by
`QueryNum` (absent / NaN-or-infinite / a finite rational); timestamps are
milliseconds since the Unix epoch (`Int`), with the server timezone fixed to
UTC; the fragment of ECMAScript regular expressions actually reachable from
these controllers (literal characters, `\`-escapes, `.`, and `*`) is given an
executable matcher.
-/

deriving instance DecidableEq for Except

namespace BadServer

/-- Result of applying JavaScript `Number(...)` to a raw query parameter:
the parameter was absent (so a code-side default applies), it coerced to
NaN or ±Infinity (`nonNumeric`), or it coerced to a finite value. -/
inductive QueryNum where
  | missing : QueryNum
  | nonNumeric : QueryNum
  | num : ℚ → QueryNum
deriving DecidableEq, Repr

/-- JavaScript whitespace as recognised by `String.prototype.trim` (the
ASCII part; the exotic Unicode spaces never arise here). -/
def isJsSpace (c : Char) : Bool :=
  c == ' ' || c == '\t' || c == '\n' || c == '\r' || c == '\x0b' || c == '\x0c'

/-- JavaScript `s.trim()`: strip leading and trailing whitespace. -/
def jsTrim (s : String) : String :=
  ⟨((s.data.dropWhile isJsSpace).reverse.dropWhile isJsSpace).reverse⟩

/-- Split a character list on a separator character (the semantics of
`String.splitOn` for a one-character separator). -/
def splitOnChar (sep : Char) : List Char → List (List Char)
  | [] => [[]]
  | c :: rest =>
    let r := splitOnChar sep rest
    if c == sep then [] :: r
    else
      match r with
      | [] => [[c]]
      | g :: gs => (c :: g) :: gs

/-- Fragment of JavaScript `Number(string)` used by the search handlers:
after trimming, the empty string coerces to 0, an optionally signed digit
string coerces to its integer value, anything else (in particular any string
containing regex metacharacters or letters) coerces to NaN (`none`).
Fractional and exponent literals never arise in the claims checked here. -/
def jsNumber? (s : String) : Option Int :=
  let t := jsTrim s
  if t = "" then some 0
  else
    let cs := t.data
    let (sign, ds) :=
      match cs with
      | '-' :: rest => ((-1 : Int), rest)
      | '+' :: rest => ((1 : Int), rest)
      | _ => ((1 : Int), cs)
    if ds ≠ [] ∧ ds.all Char.isDigit then
      some (sign * (ds.foldl (fun a c => a * 10 + (c.toNat - 48)) 0 : Nat))
    else none

/-! ### A regex engine for the fragment reachable from the controllers

The controllers pass search strings to `new RegExp(s, 'i')` (either raw, or
after `escapeRegExp`).  The strings exercised by the specification only use
literal characters, backslash escapes, `.` and `*`, so the engine models
exactly that fragment of ECMAScript regexes; `parsePieces` returns `none`
where the `RegExp` constructor would throw (a quantifier with nothing to
repeat, or a trailing backslash). -/

/-- One regex atom: a literal character or the `.` wildcard. -/
inductive Atom where
  | lit : Char → Atom
  | dot : Atom
deriving DecidableEq, Repr

/-- A regex piece: an atom, optionally followed by a `*` quantifier. -/
structure Piece where
  atom : Atom
  starred : Bool
deriving DecidableEq, Repr

/-- Parse a pattern string (as a list of characters) into pieces.
`none` models the `RegExp` constructor throwing a SyntaxError. -/
def parsePieces : List Char → Option (List Piece)
  | [] => some []
  | '*' :: _ => none
  | '\\' :: [] => none
  | '\\' :: c :: '*' :: rest => (parsePieces rest).map (⟨Atom.lit c, true⟩ :: ·)
  | '\\' :: c :: rest => (parsePieces rest).map (⟨Atom.lit c, false⟩ :: ·)
  | '.' :: '*' :: rest => (parsePieces rest).map (⟨Atom.dot, true⟩ :: ·)
  | '.' :: rest => (parsePieces rest).map (⟨Atom.dot, false⟩ :: ·)
  | c :: '*' :: rest => (parsePieces rest).map (⟨Atom.lit c, true⟩ :: ·)
  | c :: rest => (parsePieces rest).map (⟨Atom.lit c, false⟩ :: ·)

/-- Case-insensitive atom match (the `'i'` flag both controllers pass). -/
def matchAtom : Atom → Char → Bool
  | Atom.dot, _ => true
  | Atom.lit l, c => l.toLower == c.toLower

mutual

/-- Match a piece list against a prefix of the input (anchored at the start). -/
def matchHere (ps : List Piece) (cs : List Char) : Bool :=
  match ps, cs with
  | [], _ => true
  | ⟨_, false⟩ :: _, [] => false
  | ⟨a, false⟩ :: ps', c :: cs' => matchAtom a c && matchHere ps' cs'
  | ⟨a, true⟩ :: ps', _ => matchStar a ps' cs
termination_by (ps.length, cs.length, 0)

/-- Match `a*` followed by `ps` against the input. -/
def matchStar (a : Atom) (ps : List Piece) (cs : List Char) : Bool :=
  matchHere ps cs ||
    match cs with
    | [] => false
    | c :: cs' => matchAtom a c && matchStar a ps cs'
termination_by (ps.length, cs.length, 1)

end

/-- Unanchored regex test, modelling JavaScript `regex.test(s)`:
the pattern may match starting at any position of the input. -/
def reTest (ps : List Piece) (cs : List Char) : Bool :=
  matchHere ps cs ||
    match cs with
    | [] => false
    | _ :: cs' => reTest ps cs'

/-- The metacharacters escaped by the repository's `escapeRegex`
(`order.ts` line 14): `.*+?^${}()|[]\`. -/
def isRegexMeta (c : Char) : Bool :=
  c == '.' || c == '*' || c == '+' || c == '?' || c == '^' || c == '$' ||
    c == '\x7b' || c == '\x7d' || c == '(' || c == ')' || c == '|' ||
    c == '[' || c == ']' || c == '\\'

/-- `escapeRegExp`, the helper both `getOrders` and `getCustomers` apply to
the search string before building a `RegExp`: every regex metacharacter gets
a backslash prefix (the utility file matches the in-repo `escapeRegex` at
`order.ts` line 14, `s.replace(/[.*+?^$\x7b\x7d()|[\]\\]/g, '\\$&')`). -/
def escapeRegExp (s : String) : String :=
  ⟨s.data.foldr (fun c acc => if isRegexMeta c then '\\' :: c :: acc else c :: acc) []⟩

/-- Case-insensitive prefix test on character lists. -/
def isPrefixI : List Char → List Char → Bool
  | [], _ => true
  | _ :: _, [] => false
  | n :: ns, h :: hs => (n.toLower == h.toLower) && isPrefixI ns hs

/-- Literal case-insensitive substring containment: the semantics the
specification demands of every search endpoint. -/
def containsSubstrI (needle hay : String) : Bool :=
  go needle.data hay.data
where
  go (n : List Char) : List Char → Bool
    | [] => isPrefixI n []
    | c :: cs => isPrefixI n (c :: cs) || go n cs

/-- The regex test `getOrders` and `getCustomers` actually run on a text
field: escape the search string, compile it case-insensitively, test
unanchored (`order.ts` lines 118–122, part_000 lines 152–162). -/
def escRegexTest (search text : String) : Bool :=
  match parsePieces (escapeRegExp search).data with
  | some ps => reTest ps text.data
  | none => false

/-! ### Pagination sanitizers -/

/-- Effective page size in `getOrders` (`order.ts` lines 31–39):
`Number.isFinite(Number(limit)) && Number(limit) > 0
  ? Math.min(Math.floor(Number(limit)), MAX_LIMIT) : 10`
with `MAX_LIMIT = 10` and destructuring default `limit = 10`. -/
def getOrders_safeLimit : QueryNum → Int
  | QueryNum.missing => 10
  | QueryNum.nonNumeric => 10
  | QueryNum.num q => if 0 < q then min ⌊q⌋ 10 else 10

/-- Effective page size in `getCustomers` (part_000 lines 42–45): the same
clamp as `getOrders`, written in the customers controller. -/
def getCustomers_safeLimit : QueryNum → Int
  | QueryNum.missing => 10
  | QueryNum.nonNumeric => 10
  | QueryNum.num q => if 0 < q then min ⌊q⌋ 10 else 10

/-- The page size `getOrdersCurrentUser` uses and reports
(`order.ts` lines 178–182, 237): destructuring default `limit = 5`, then the
raw `Number(limit)` with no finiteness check, floor, or ceiling.
`none` is NaN. -/
def getOrdersCurrentUser_pageSize : QueryNum → Option ℚ
  | QueryNum.missing => some 5
  | QueryNum.nonNumeric => none
  | QueryNum.num q => some q

/-! ### Calendar dates

Timestamps are milliseconds since the Unix epoch.  `parseDateOnly` models
ECMAScript `new Date(s)` on date-only strings `YYYY-MM-DD` (the forms the
claims exercise), which parse to UTC midnight of that day; `none` models an
Invalid Date.  The server timezone is taken to be UTC, so
`setHours(23, 59, 59, 999)` lands on the same UTC day. -/

/-- Milliseconds in one day. -/
def msPerDay : Int := 86400000

/-- Is a year a leap year (proleptic Gregorian)? -/
def isLeapYear (y : Int) : Bool :=
  (y % 4 == 0 && y % 100 != 0) || y % 400 == 0

/-- Number of days in a month. -/
def daysInMonth (y : Int) (m : Nat) : Nat :=
  if m == 2 then (if isLeapYear y then 29 else 28)
  else if m == 4 || m == 6 || m == 9 || m == 11 then 30
  else 31

/-- Days from 1970-01-01 to the given civil date (days-from-civil
algorithm over the proleptic Gregorian calendar). -/
def daysFromCivil (y : Int) (m d : Nat) : Int :=
  let y' : Int := if m ≤ 2 then y - 1 else y
  let era : Int := (if 0 ≤ y' then y' else y' - 399) / 400
  let yoe : Int := y' - era * 400
  let mp : Int := ((m : Int) + 9) % 12
  let doy : Int := (153 * mp + 2) / 5 + (d : Int) - 1
  let doe : Int := yoe * 365 + yoe / 4 - yoe / 100 + doy
  era * 146097 + doe - 719468

/-- Digit-string to number. -/
def digitsToNat (cs : List Char) : Nat :=
  cs.foldl (fun a c => a * 10 + (c.toNat - 48)) 0

/-- `new Date(s)` for date-only `YYYY-MM-DD` strings: UTC midnight of the
day in epoch milliseconds, `none` when the string is not a valid calendar
date (the controllers then reject with BadRequest). -/
def parseDateOnly (s : String) : Option Int :=
  match splitOnChar '-' s.data with
  | [ys, ms, ds] =>
    if ys.length == 4 && ms.length == 2 && ds.length == 2 &&
        (ys ++ ms ++ ds).all Char.isDigit then
      let y : Int := (digitsToNat ys : Nat)
      let m := digitsToNat ms
      let d := digitsToNat ds
      if 1 ≤ m && m ≤ 12 && 1 ≤ d && d ≤ daysInMonth y m then
        some (msPerDay * daysFromCivil y m d)
      else none
    else none
  | _ => none

/-- Upper bound `getCustomers` derives from `registrationDateTo`
(part_000 lines 86–98): parse the date, then `setHours(23, 59, 59, 999)` —
the last millisecond of that calendar day. -/
def getCustomers_registrationDateToBound (s : String) : Option Int :=
  (parseDateOnly s).map (· + (msPerDay - 1))

/-- Upper bound `getCustomers` derives from `lastOrderDateTo`
(part_000 lines 113–121): same end-of-day adjustment. -/
def getCustomers_lastOrderDateToBound (s : String) : Option Int :=
  (parseDateOnly s).map (· + (msPerDay - 1))

/-- Upper bound `getOrders` derives from `orderDateTo` (`order.ts` lines
84–89): the parsed date is used as-is, with no end-of-day adjustment. -/
def getOrders_orderDateToBound (s : String) : Option Int :=
  parseDateOnly s

/-- The `$lte` comparison a derived upper bound induces on a stored
timestamp: the record is kept iff its timestamp is at most the bound. -/
def lteBound (ts bound : Int) : Bool :=
  ts ≤ bound

/-! ### Data model

Documents as the controllers read them.  `_id` values are bare naturals
(Mongo ObjectIds only compared for equality here); a `Product.price` of
`none` is the catalog's `null` (not sellable). -/

/-- A catalog product. -/
structure Product where
  pid : Nat
  title : String
  price : Option Int
deriving DecidableEq, Repr

/-- A user document (only the fields the controllers touch). -/
structure UserDoc where
  uid : Nat
  name : String
deriving DecidableEq, Repr

/-- An order document. -/
structure OrderDoc where
  oid : Nat
  orderNumber : Int
  status : String
  totalAmount : Int
  products : List Nat
  customer : Nat
  createdAt : Int
  phone : String
  email : String
  deliveryAddress : String
  payment : String
deriving DecidableEq, Repr

/-- The document store the controllers run against. -/
structure Store where
  products : List Product
  users : List UserDoc
  orders : List OrderDoc
  /-- Next value of the sequential public order number.  Modelled from the
  spec: the order schema's auto-incremented `orderNumber` generator is not
  under src. -/
  nextOrderNumber : Int
  /-- Request timestamp used for `createdAt`.  Modelled from the spec: the
  schema's creation-timestamp default is not under src. -/
  now : Int
deriving DecidableEq, Repr

/-- Error kinds the controllers produce.  `forbidden` never occurs in the
code; it is present so that "never returns forbidden" is a non-vacuous
statement. -/
inductive Err where
  | badRequest : String → Err
  | notFound : String → Err
  | forbidden : String → Err
deriving DecidableEq, Repr

/-! ### createOrder (`order.ts` lines 304–371)

The request body's `items` is `none` when not an array, `phone` is `none`
when not a string; `total` is the client-claimed numeric total.  The
`comment` field and its `sanitizeHtml` call (an external library) are not
modelled — no claim touches them.  Persistence (`newOrder.save()`) appends
the document to the store. -/

/-- The phone check `/^\+?\d{10,15}$/.test(normalizedPhone)`
(`order.ts` line 328). -/
def phoneRegexTest (s : String) : Bool :=
  let cs := s.data
  let ds := match cs with
    | '+' :: rest => rest
    | _ => cs
  ds.all Char.isDigit && 10 ≤ ds.length && ds.length ≤ 15

/-- The createOrder request body (fields the controller reads). -/
structure OrderReq where
  address : String
  payment : String
  phone : Option String
  total : Int
  email : String
  items : Option (List Nat)
deriving DecidableEq, Repr

/-- `Product.find({ _id: { $in: items } })` (`order.ts` line 333): the
catalog documents whose id occurs in `items` — one document per catalog
entry, regardless of how often its id repeats in `items`. -/
def findProductsIn (catalog : List Product) (items : List Nat) : List Product :=
  catalog.filter (fun p => items.contains p.pid)

/-- The `items.forEach` resolution loop (`order.ts` lines 336–341): look
each id up among the found products, reject a missing id or a `null` price,
and push the product onto the basket in item order. -/
def resolveBasket (items : List Nat) (products : List Product) :
    Except Err (List Product) :=
  match items with
  | [] => Except.ok []
  | id :: rest =>
    match products.find? (fun p => p.pid == id) with
    | none => Except.error (Err.badRequest ("Товар с id " ++ toString id ++ " не найден"))
    | some product =>
      if product.price = none then
        Except.error (Err.badRequest ("Товар с id " ++ toString id ++ " не продается"))
      else (resolveBasket rest products).map (product :: ·)

/-- `basket.reduce((a, c) => a + c.price, 0)` (`order.ts` line 343); every
basket member has a non-`null` price by construction of `resolveBasket`. -/
def basketTotal (basket : List Product) : Int :=
  basket.foldl (fun a c => a + c.price.getD 0) 0

/-- `createOrder` (`order.ts` lines 304–371): validations in source order,
then persistence.  The generated `oid`, `orderNumber`, `status` default and
`createdAt` are modelled from the spec (the order schema is not under src);
none of the claims depends on their values. -/
def createOrder (userId : Nat) (req : OrderReq) (st : Store) :
    Except Err OrderDoc × Store :=
  match req.items with
  | none => (Except.error (Err.badRequest "items должен быть массивом"), st)
  | some items =>
    if items.length = 0 ∨ items.length > 50 then
      (Except.error (Err.badRequest "Некорректное количество товаров (1-50)"), st)
    else
      match req.phone with
      | none => (Except.error (Err.badRequest "Телефон должен быть строкой"), st)
      | some phone =>
        let normalizedPhone := jsTrim phone
        if normalizedPhone.length > 20 then
          (Except.error (Err.badRequest "Слишком длинный телефон"), st)
        else if ¬ phoneRegexTest normalizedPhone then
          (Except.error (Err.badRequest "Некорректный телефон"), st)
        else
          let products := findProductsIn st.products items
          if products.length ≠ items.length then
            (Except.error (Err.badRequest "Товар не найден"), st)
          else
            match resolveBasket items products with
            | Except.error e => (Except.error e, st)
            | Except.ok basket =>
              let totalBasket := basketTotal basket
              if totalBasket ≠ req.total then
                (Except.error (Err.badRequest "Неверная сумма заказа"), st)
              else
                let newOrder : OrderDoc :=
                  { oid := st.orders.length
                    orderNumber := st.nextOrderNumber
                    status := "created"
                    totalAmount := req.total
                    products := items
                    customer := userId
                    createdAt := st.now
                    phone := normalizedPhone
                    email := req.email
                    deliveryAddress := req.address
                    payment := req.payment }
                (Except.ok newOrder,
                  { st with
                      orders := st.orders ++ [newOrder]
                      nextOrderNumber := st.nextOrderNumber + 1 })

/-! ### getOrders aggregation (`order.ts` lines 54–155)

The sanitized filter values (`filters`, `safeSearch`) feed a shared base
pipeline — `$match`, two `$lookup`s, `$unwind` customer, `$unwind` products,
optional search `$match` — from which the data pipeline (sort, skip, limit,
re-group) and the count pipeline (group by id, count) both extend. -/

/-- The sanitized `filters` object plus `safeSearch` as they reach the
pipeline (all values already validated; dates are epoch milliseconds). -/
structure OrdersFilters where
  status? : Option String
  totalAmountFrom? : Option Int
  totalAmountTo? : Option Int
  orderDateFrom? : Option Int
  orderDateTo? : Option Int
  search? : Option String
deriving DecidableEq, Repr

/-- The `$match: filters` stage: conjunction of the equality/range
predicates accumulated into `filters` (`order.ts` lines 54–89). -/
def matchOrder (f : OrdersFilters) (o : OrderDoc) : Bool :=
  (match f.status? with
   | none => true
   | some s => o.status == s) &&
  (match f.totalAmountFrom? with
   | none => true
   | some n => n ≤ o.totalAmount) &&
  (match f.totalAmountTo? with
   | none => true
   | some n => o.totalAmount ≤ n) &&
  (match f.orderDateFrom? with
   | none => true
   | some d => d ≤ o.createdAt) &&
  (match f.orderDateTo? with
   | none => true
   | some d => o.createdAt ≤ d)

/-- One flattened row after the two `$lookup`/`$unwind` stages: an order,
its resolved customer, and one of its resolved products. -/
abbrev Row := OrderDoc × UserDoc × Product

/-- The shared pipeline prefix (`order.ts` lines 95–128): match, look up
products and customer, unwind both (inner-join semantics: an order with no
resolvable customer or no resolvable product yields no rows), then the
optional search `$match` on product title or numeric order number. -/
def basePipeline (db : Store) (f : OrdersFilters) : List Row :=
  let rows :=
    (db.orders.filter (matchOrder f)).flatMap (fun o =>
      (db.users.filter (fun u => u.uid == o.customer)).flatMap (fun u =>
        (db.products.filter (fun p => o.products.contains p.pid)).map
          (fun p => (o, u, p))))
  match f.search? with
  | none => rows
  | some s =>
    if s = "" then rows
    else
      rows.filter (fun r =>
        escRegexTest s r.2.2.title ||
          match jsNumber? s with
          | some n => r.1.orderNumber == n
          | none => false)

/-- Sort comparator for the `$sort` stage: compare the sanitized sort
field, descending when `desc` (`order.ts` lines 91–92, 131). -/
def rowLeB (sf : String) (desc : Bool) (a b : Row) : Bool :=
  let x := if desc then b else a
  let y := if desc then a else b
  if sf == "totalAmount" then decide (x.1.totalAmount ≤ y.1.totalAmount)
  else if sf == "orderNumber" then decide (x.1.orderNumber ≤ y.1.orderNumber)
  else if sf == "status" then decide (x.1.status ≤ y.1.status)
  else decide (x.1.createdAt ≤ y.1.createdAt)

/-- The `$sort` stage as a relation. -/
def rowLe (sf : String) (desc : Bool) (a b : Row) : Prop :=
  rowLeB sf desc a b = true

instance (sf : String) (desc : Bool) : DecidableRel (rowLe sf desc) :=
  fun a b => by unfold rowLe; infer_instance

/-- The `$sort` stage: any stable realisation of the comparator; only its
permutation property matters to the claims. -/
def sortRows (sf : String) (desc : Bool) (rows : List Row) : List Row :=
  List.insertionSort (rowLe sf desc) rows

/-- The `$group: { _id: '$_id' }` collapse: one bucket per distinct order
identity among the rows. -/
def groupOrderIds (rows : List Row) : List Nat :=
  (rows.map (fun r => r.1.oid)).dedup

/-- The data pipeline's page window (`order.ts` lines 130–133): sort, skip
`(page-1)*limit` rows, take `limit` rows. -/
def ordersDataPage (db : Store) (f : OrdersFilters) (sf : String) (desc : Bool)
    (page limit : Nat) : List Row :=
  ((sortRows sf desc (basePipeline db f)).drop ((page - 1) * limit)).take limit

/-- The distinct orders the data pipeline returns on one page (the
`$group` stage, `order.ts` lines 134–144, keyed by order identity). -/
def ordersDataPageIds (db : Store) (f : OrdersFilters) (sf : String)
    (desc : Bool) (page limit : Nat) : List Nat :=
  groupOrderIds (ordersDataPage db f sf desc page limit)

/-- The count pipeline (`order.ts` line 147): group the shared prefix's
rows by order identity, count the buckets — the reported `totalOrders`. -/
def ordersCountTotal (db : Store) (f : OrdersFilters) : Nat :=
  ((basePipeline db f).map (fun r => r.1.oid)).dedup.length

/-! ### getOrdersCurrentUser search step (`order.ts` lines 205–224) -/

/-- The search filter of `getOrdersCurrentUser`: when a non-empty search
is present, build `new RegExp(search, 'i')` from the RAW search string (no
escaping), collect the ids of products whose title the pattern matches,
and keep orders matching the numeric search or containing a matched
product.  `none` models the `RegExp` constructor throwing. -/
def getOrdersCurrentUserSearchStep (db : Store) (search : Option String)
    (orders : List OrderDoc) : Option (List OrderDoc) :=
  match search with
  | none => some orders
  | some s =>
    if s = "" then some orders
    else
      match parsePieces s.data with
      | none => none
      | some ps =>
        let productIds := (db.products.filter (fun p => reTest ps p.title.data)).map
          (fun p => p.pid)
        let searchNumber := jsNumber? s
        some (orders.filter (fun o =>
          (match searchNumber with
           | some n => o.orderNumber == n
           | none => false) ||
          o.products.any (fun pid => productIds.contains pid)))

/-! ### getOrderCurrentUserByNumber (`order.ts` lines 271–301) -/

/-- `Order.findOne({ orderNumber })`. -/
def findOrderByNumber (db : Store) (n : Int) : Option OrderDoc :=
  db.orders.find? (fun o => o.orderNumber == n)

/-- `getOrderCurrentUserByNumber`: look the order up by public number;
absent → NotFound; present but owned by another customer → the same
NotFound (the deliberate 404-instead-of-403 disguise at lines 288–293);
otherwise return the order. -/
def getOrderCurrentUserByNumber (userId : Nat) (orderNumber : Int)
    (db : Store) : Except Err OrderDoc :=
  match findOrderByNumber db orderNumber with
  | none => Except.error (Err.notFound "Заказ по заданному id отсутствует в базе")
  | some order =>
    if order.customer ≠ userId then
      Except.error (Err.notFound "Заказ по заданному id отсутствует в базе")
    else Except.ok order

/-! ### Customer by-id operations (part_000 lines 207–269) -/

/-- A customer-endpoint response: an HTTP success with its status code and
JSON body (`none` is the literal `null` body), or an error. -/
inductive CustomerRes where
  | ok : Nat → Option UserDoc → CustomerRes
  | err : Err → CustomerRes
deriving DecidableEq, Repr

/-- `User.findById`. -/
def findUserById (db : Store) (id : Nat) : Option UserDoc :=
  db.users.find? (fun u => u.uid == id)

/-- `getCustomerById` (part_000 lines 207–221): no `orFail` — a missing id
flows through as `null` and is serialized with status 200. -/
def getCustomerById (id : Nat) (db : Store) : CustomerRes :=
  CustomerRes.ok 200 (findUserById db id)

/-- `updateCustomer` (part_000 lines 225–249): `findByIdAndUpdate` with
`orFail`, so a missing id is a NotFound error.  The update body is
restricted here to the `name` field; the claims only exercise the missing
id path. -/
def updateCustomer (id : Nat) (newName : Option String) (db : Store) :
    CustomerRes × Store :=
  match findUserById db id with
  | none =>
    (CustomerRes.err (Err.notFound "Пользователь по заданному id отсутствует в базе"), db)
  | some u =>
    let u' := { u with name := newName.getD u.name }
    (CustomerRes.ok 200 (some u'),
      { db with users := db.users.map (fun v => if v.uid == id then u' else v) })

/-- `deleteCustomer` (part_000 lines 253–269): `findByIdAndDelete` with
`orFail`, so a missing id is a NotFound error. -/
def deleteCustomer (id : Nat) (db : Store) : CustomerRes × Store :=
  match findUserById db id with
  | none =>
    (CustomerRes.err (Err.notFound "Пользователь по заданному id отсутствует в базе"), db)
  | some u =>
    (CustomerRes.ok 200 (some u),
      { db with users := db.users.filter (fun v => ¬ v.uid == id) })

/-! ### uploadFile (`upload.ts` lines 1–51) -/

/-- The multer-populated `req.file` fields the controller reads. -/
structure UploadedFile where
  size? : Option Nat
  path : String
  filename : String
  originalname : String
deriving DecidableEq, Repr

/-- Temp-file state touched by `fs.unlink`. -/
structure FsState where
  tempFiles : List String
deriving DecidableEq, Repr

/-- `upload.ts` line 7: `MIN_FILE_SIZE_BYTES = 2 * 1024`. -/
def MIN_FILE_SIZE_BYTES : Nat := 2 * 1024

/-- `upload.ts` line 8: `MIN_FILE_SIZE_STRICT = MIN_FILE_SIZE_BYTES + 1`. -/
def MIN_FILE_SIZE_STRICT : Nat := MIN_FILE_SIZE_BYTES + 1

/-- An uploadFile response. -/
inductive UploadRes where
  | created : String → String → UploadRes
  | badRequest : String → UploadRes
deriving DecidableEq, Repr

/-- `base.replace(/^\/+|\/+$/g, '')`. -/
def trimSlashes (s : String) : String :=
  ⟨((s.data.dropWhile (· == '/')).reverse.dropWhile (· == '/')).reverse⟩

/-- `upload.ts` line 41: the normalized base path. -/
def normalizedBase (base : String) : String :=
  if base = "" then "" else "/" ++ trimSlashes base

/-- `uploadFile` (`upload.ts` lines 10–51).  `metaOf` is the
`sharp(path).metadata()` oracle: `none` when the call throws, otherwise the
(possibly absent/zero, i.e. falsy) width and height.  The returned triple
is the response, the temp-file state after any `unlink`, and whether the
image-metadata inspection was reached. -/
def uploadFile (file? : Option UploadedFile)
    (metaOf : String → Option (Option Nat × Option Nat)) (base : String)
    (fs : FsState) : UploadRes × FsState × Bool :=
  match file? with
  | none => (UploadRes.badRequest "Файл не загружен", fs, false)
  | some f =>
    if f.size?.getD 0 < MIN_FILE_SIZE_STRICT then
      let fs' := if f.path ≠ "" then { fs with tempFiles := fs.tempFiles.erase f.path } else fs
      (UploadRes.badRequest "Слишком маленький файл", fs', false)
    else
      match metaOf f.path with
      | none =>
        (UploadRes.badRequest "Некорректное изображение",
          { fs with tempFiles := fs.tempFiles.erase f.path }, true)
      | some (w?, h?) =>
        if w?.getD 0 = 0 ∨ h?.getD 0 = 0 then
          (UploadRes.badRequest "Некорректное изображение",
            { fs with tempFiles := fs.tempFiles.erase f.path }, true)
        else
          (UploadRes.created (normalizedBase base ++ "/" ++ f.filename) f.originalname,
            fs, true)

/-! ### Sample data used by witnesses and counterexamples -/

/-- A store with no documents. -/
def emptyStore : Store :=
  { products := []
    users := []
    orders := []
    nextOrderNumber := 1
    now := 0 }

/-- An order with public number 7 owned by user 1. -/
def order7 : OrderDoc :=
  { oid := 0
    orderNumber := 7
    status := "created"
    totalAmount := 5
    products := [1]
    customer := 1
    createdAt := 0
    phone := ""
    email := ""
    deliveryAddress := ""
    payment := "" }

/-- A store containing only `order7`. -/
def storeWithOrder7 : Store :=
  { emptyStore with orders := [order7], nextOrderNumber := 8 }

/-- An uploaded file of exactly 2048 bytes. -/
def file2048 : UploadedFile :=
  { size? := some 2048
    path := "temp/x"
    filename := "x.png"
    originalname := "x.png" }

/-- A catalog holding products priced 10 and 25. -/
def catalogStore : Store :=
  { emptyStore with
      products := [⟨1, "A", some 10⟩, ⟨2, "B", some 25⟩] }

/-- An order request for items [1, 2] with the given claimed total. -/
def reqItems12 (total : Int) : OrderReq :=
  { address := "addr"
    payment := "card"
    phone := some "+1234567890"
    total := total
    email := "e@e"
    items := some [1, 2] }

/-- A one-product catalog (price 5). -/
def dupStore : Store :=
  { emptyStore with products := [⟨1, "A", some 5⟩] }

/-- An order request listing product 1 twice, with the per-occurrence sum
as claimed total. -/
def reqDup : OrderReq :=
  { address := "addr"
    payment := "card"
    phone := some "+1234567890"
    total := 10
    email := "e@e"
    items := some [1, 1] }

/-- A request whose `items` is not an array. -/
def reqNotArray : OrderReq :=
  { address := ""
    payment := ""
    phone := none
    total := 0
    email := ""
    items := none }

/-- A store whose only product is titled "aXbbc". -/
def dbTitled : Store :=
  { emptyStore with products := [⟨1, "aXbbc", some 3⟩] }

/-- A store where `order7`'s product and customer both resolve. -/
def aggStore : Store :=
  { emptyStore with products := [⟨1, "A", some 5⟩], users := [⟨1, "u"⟩], orders := [order7] }

/-- The unconstrained orders filter (no status, ranges, or search). -/
def noFilters : OrdersFilters :=
  { status? := none
    totalAmountFrom? := none
    totalAmountTo? := none
    orderDateFrom? := none
    orderDateTo? := none
    search? := none }

/-! ## Claims -/

/-- The element at index `j` lies in the page window starting at
`(j / L) * L`. -/
theorem getElem_mem_chunk {α : Type} (L : Nat) (hL : 0 < L) (l : List α)
    (j : Nat) (hj : j < l.length) : l[j] ∈ (l.drop (j / L * L)).take L := by
  have hmod : j % L < L := Nat.mod_lt _ hL
  have hdm : j / L * L + j % L = j := by
    rw [Nat.mul_comm]
    exact Nat.div_add_mod j L
  have hlen1 : j % L < ((l.drop (j / L * L)).take L).length := by
    simp only [List.length_take, List.length_drop]
    omega
  have hget : ((l.drop (j / L * L)).take L).get ⟨j % L, hlen1⟩ = l[j] := by
    rw [List.get_eq_getElem, List.getElem_take, List.getElem_drop]
    congr 1
  rw [← hget]
  exact List.get_mem _ _ hlen1

/-- Every list element appears in some window of width `L`, at a window
index bounded by the list length. -/
theorem mem_chunks {α : Type} (L : Nat) (hL : 0 < L) (l : List α) (x : α) :
    x ∈ l ↔ ∃ p, p ≤ l.length ∧ x ∈ (l.drop (p * L)).take L := by
  constructor
  · intro hx
    obtain ⟨j, hj, hxe⟩ := List.getElem_of_mem hx
    refine ⟨j / L, le_of_lt (lt_of_le_of_lt (Nat.div_le_self j L) hj), ?_⟩
    rw [← hxe]
    exact getElem_mem_chunk L hL l j hj
  · rintro ⟨p, -, hmem⟩
    exact List.mem_of_mem_drop (List.mem_of_mem_take hmem)

/-- C6: for every filter-and-search combination and every positive page
size, the count pipeline's `totalOrders` equals the number of distinct
orders the data pipeline would return across all pages — both extend the
same post-flatten, post-search prefix. -/
theorem claim_C6_confirmed (db : Store) (f : OrdersFilters) (sf : String)
    (desc : Bool) (L : Nat) (hL : 0 < L) :
    ordersCountTotal db f =
      ((Finset.range ((basePipeline db f).length + 1)).biUnion
        (fun i => (ordersDataPageIds db f sf desc (i + 1) L).toFinset)).card := by
  classical
  have hperm : List.Perm (sortRows sf desc (basePipeline db f)) (basePipeline db f) :=
    List.perm_insertionSort _ _
  have hlen : (sortRows sf desc (basePipeline db f)).length =
      (basePipeline db f).length := hperm.length_eq
  have hset : ((Finset.range ((basePipeline db f).length + 1)).biUnion
        (fun i => (ordersDataPageIds db f sf desc (i + 1) L).toFinset)) =
      ((basePipeline db f).map (fun r => r.1.oid)).toFinset := by
    ext x
    simp only [Finset.mem_biUnion, Finset.mem_range, List.mem_toFinset,
      ordersDataPageIds, ordersDataPage, groupOrderIds, List.mem_dedup,
      Nat.add_sub_cancel]
    constructor
    · rintro ⟨i, _, hx⟩
      have hx' : x ∈ (sortRows sf desc (basePipeline db f)).map (fun r => r.1.oid) := by
        rcases List.mem_map.mp hx with ⟨r, hr, rfl⟩
        exact List.mem_map_of_mem _
          (List.mem_of_mem_drop (List.mem_of_mem_take hr))
      exact (hperm.map _).mem_iff.mp hx'
    · intro hx
      have hx' : x ∈ (sortRows sf desc (basePipeline db f)).map (fun r => r.1.oid) :=
        (hperm.map _).mem_iff.mpr hx
      rw [mem_chunks L hL _ x] at hx'
      obtain ⟨p, hp, hmem⟩ := hx'
      refine ⟨p, ?_, ?_⟩
      · rw [List.length_map, hlen] at hp
        omega
      · rw [List.map_take, List.map_drop]
        exact hmem
  calc ordersCountTotal db f
      = ((basePipeline db f).map (fun r => r.1.oid)).toFinset.card :=
        (List.card_toFinset _).symm
    _ = ((Finset.range ((basePipeline db f).length + 1)).biUnion
          (fun i => (ordersDataPageIds db f sf desc (i + 1) L).toFinset)).card := by
        rw [hset]

/-- C6 witness: the count consistency applied to a one-order store with
page size 1. -/
theorem claim_C6_witness :
    0 < 1 ∧
      ordersCountTotal aggStore noFilters =
        ((Finset.range ((basePipeline aggStore noFilters).length + 1)).biUnion
          (fun i =>
            (ordersDataPageIds aggStore noFilters "createdAt" true (i + 1) 1).toFinset)).card :=
  ⟨by decide, claim_C6_confirmed aggStore noFilters "createdAt" true 1 (by decide)⟩

/-- C2 (code bug): `getOrdersCurrentUser` builds its RegExp from the raw
search string — despite the adjacent comment stating that escaping is
required — so the metacharacter search "a.b*c" is evaluated as a pattern:
it matches the product title "aXbbc" (a, any char, two b's, c) and the
containing order is returned, whereas the claimed literal case-insensitive
substring semantics (and the escaped test that `getOrders`/`getCustomers`
run) both reject that title. -/
theorem claim_C2_code_bug :
    getOrdersCurrentUserSearchStep dbTitled (some "a.b*c") [order7] =
        some [order7] ∧
      containsSubstrI "a.b*c" "aXbbc" = false ∧
      escRegexTest "a.b*c" "aXbbc" = false := by
  refine ⟨?_, by rfl, ?_⟩
  · simp [getOrdersCurrentUserSearchStep, dbTitled, emptyStore, order7,
      parsePieces, reTest, matchHere, matchStar, matchAtom, jsNumber?, jsTrim,
      isJsSpace]
  · simp [escRegexTest, escapeRegExp, isRegexMeta, parsePieces, reTest,
      matchHere, matchStar, matchAtom]

/-- `createOrder` either leaves the store untouched or returns a success:
the shape underlying the no-partial-write claims. -/
theorem createOrder_store_cases (uid : Nat) (req : OrderReq) (st : Store) :
    (createOrder uid req st).2 = st ∨ ∃ o, (createOrder uid req st).1 = Except.ok o := by
  simp only [createOrder]
  repeat' split
  all_goals first
    | exact Or.inl rfl
    | exact Or.inr ⟨_, rfl⟩

/-- C7: whenever `createOrder` returns an error — any of its validation
failures — the store is unchanged: no order document was persisted. -/
theorem claim_C7_confirmed (uid : Nat) (req : OrderReq) (st : Store) (e : Err)
    (h : (createOrder uid req st).1 = Except.error e) :
    (createOrder uid req st).2 = st := by
  rcases createOrder_store_cases uid req st with h2 | ⟨o, h2⟩
  · exact h2
  · rw [h2] at h
    simp at h

/-- C7 witness: a request whose items is not an array fails and leaves the
store unchanged. -/
theorem claim_C7_witness :
    (createOrder 0 reqNotArray emptyStore).1 =
        Except.error (Err.badRequest "items должен быть массивом") ∧
      (createOrder 0 reqNotArray emptyStore).2 = emptyStore :=
  ⟨by decide,
    claim_C7_confirmed 0 reqNotArray emptyStore
      (Err.badRequest "items должен быть массивом") (by decide)⟩

/-- A list with a repeated element strictly shrinks under dedup. -/
theorem length_dedup_lt_of_not_nodup {α : Type} [DecidableEq α] {l : List α}
    (h : ¬ l.Nodup) : l.dedup.length < l.length := by
  have hsub : l.dedup.Sublist l := List.dedup_sublist l
  rcases lt_or_eq_of_le hsub.length_le with hlt | heq
  · exact hlt
  · exact absurd (List.dedup_eq_self.mp (hsub.eq_of_length heq)) h

/-- With distinct catalog ids, `Product.find({$in: items})` returns at most
one document per distinct item id. -/
theorem findProductsIn_length_le_dedup (catalog : List Product)
    (items : List Nat) (hcat : (catalog.map Product.pid).Nodup) :
    (findProductsIn catalog items).length ≤ items.dedup.length := by
  classical
  have hsubl : (findProductsIn catalog items).Sublist catalog :=
    List.filter_sublist catalog
  have hpids : ((findProductsIn catalog items).map Product.pid).Nodup :=
    hcat.sublist (hsubl.map Product.pid)
  have hsub : ∀ x ∈ (findProductsIn catalog items).map Product.pid, x ∈ items := by
    intro x hx
    simp only [List.mem_map] at hx
    obtain ⟨p, hp, rfl⟩ := hx
    have hmem := List.of_mem_filter hp
    simpa using hmem
  calc (findProductsIn catalog items).length
      = ((findProductsIn catalog items).map Product.pid).length := by
        rw [List.length_map]
    _ = ((findProductsIn catalog items).map Product.pid).toFinset.card :=
        (List.toFinset_card_of_nodup hpids).symm
    _ ≤ items.toFinset.card := by
        apply Finset.card_le_card
        intro x hx
        rw [List.mem_toFinset] at hx ⊢
        exact hsub x hx
    _ = items.dedup.length := List.card_toFinset items

/-- A successful resolution yields one basket entry per item occurrence. -/
theorem resolveBasket_length (items : List Nat) (products : List Product) :
    ∀ basket, resolveBasket items products = Except.ok basket →
      basket.length = items.length := by
  induction items with
  | nil =>
    intro basket h
    simp only [resolveBasket, Except.ok.injEq] at h
    rw [← h]
    rfl
  | cons id rest ih =>
    intro basket h
    simp only [resolveBasket] at h
    cases hfind : products.find? (fun p => p.pid == id) with
    | none => rw [hfind] at h; exact absurd h (by simp)
    | some p =>
      rw [hfind] at h
      dsimp only at h
      by_cases hp : p.price = none
      · rw [if_pos hp] at h
        exact absurd h (by simp)
      · rw [if_neg hp] at h
        cases hrec : resolveBasket rest products with
        | error e => rw [hrec] at h; exact absurd h (by simp [Except.map])
        | ok b =>
          rw [hrec] at h
          simp only [Except.map, Except.ok.injEq] at h
          rw [← h]
          simp [ih b hrec]

/-- C5 counterexample: items [1, 1] over a catalog where product 1 is
sellable at price 5, with the per-occurrence sum 10 as claimed total — the
claim says this is accepted, but `createOrder` rejects it with the
length-check BadRequest, because `Product.find({$in})` returns one distinct
document against two list entries. -/
theorem claim_C5_counterexample :
    (createOrder 9 reqDup dupStore).1 =
        Except.error (Err.badRequest "Товар не найден") ∧
      reqDup.total = basketTotal [⟨1, "A", some 5⟩, ⟨1, "A", some 5⟩] ∧
      (createOrder 9 reqDup dupStore).2 = dupStore := by
  exact ⟨rfl, rfl, rfl⟩

/-- C5 (amended): an items list containing a duplicated product id is
always rejected with the "Товар не найден" BadRequest (the distinct-product
count cannot equal the list length), persisting nothing; for duplicate-free
lists the original claim's content holds — a successful resolution yields
one basket term per list entry, and a successful creation persists the
product ids exactly as submitted. -/
theorem claim_C5_amended (uid : Nat) (req : OrderReq) (st : Store)
    (items : List Nat) (phone : String)
    (hitems : req.items = some items)
    (hlen : ¬(items.length = 0 ∨ items.length > 50))
    (hphone : req.phone = some phone)
    (hplen : ¬ (jsTrim phone).length > 20)
    (hpre : phoneRegexTest (jsTrim phone) = true) :
    (¬ items.Nodup → (st.products.map Product.pid).Nodup →
      (createOrder uid req st).1 = Except.error (Err.badRequest "Товар не найден") ∧
        (createOrder uid req st).2 = st) ∧
    (∀ products basket, resolveBasket items products = Except.ok basket →
      basket.length = items.length) ∧
    (∀ basket, (findProductsIn st.products items).length = items.length →
      resolveBasket items (findProductsIn st.products items) = Except.ok basket →
      req.total = basketTotal basket →
      ∃ o, (createOrder uid req st).1 = Except.ok o ∧ o.products = items) := by
  refine ⟨?_, fun products basket h => resolveBasket_length items products basket h, ?_⟩
  · intro hdup hcat
    have hlt : (findProductsIn st.products items).length < items.length :=
      lt_of_le_of_lt (findProductsIn_length_le_dedup st.products items hcat)
        (length_dedup_lt_of_not_nodup hdup)
    have hne : (findProductsIn st.products items).length ≠ items.length :=
      Nat.ne_of_lt hlt
    simp only [createOrder, hitems, hphone, if_neg hlen, if_neg hplen, hpre,
      Bool.not_eq_true, not_false_eq_true, if_true, if_pos hne]
    exact ⟨rfl, rfl⟩
  · intro basket hcount hres htotal
    have hnotlen : ¬ (findProductsIn st.products items).length ≠ items.length :=
      not_not_intro hcount
    simp only [createOrder, hitems, hphone, if_neg hlen, if_neg hplen, hpre,
      Bool.not_eq_true, not_false_eq_true, if_true, if_neg hnotlen, hres,
      if_neg (not_not_intro htotal.symm)]
    exact ⟨_, rfl, rfl⟩

/-- C5 witness: the amended statement applied to the duplicate request
(rejected with nothing persisted) and to a distinct-id request (persisted
product ids exactly as submitted). -/
theorem claim_C5_witness :
    ((createOrder 9 reqDup dupStore).1 =
        Except.error (Err.badRequest "Товар не найден") ∧
      (createOrder 9 reqDup dupStore).2 = dupStore) ∧
    (∃ o, (createOrder 9 (reqItems12 35) catalogStore).1 = Except.ok o ∧
      o.products = [1, 2]) :=
  ⟨(claim_C5_amended 9 reqDup dupStore [1, 1] "+1234567890"
      (by decide) (by decide) (by decide) (by decide) (by decide)).1
      (by decide) (by decide),
    (claim_C5_amended 9 (reqItems12 35) catalogStore [1, 2] "+1234567890"
      (by decide) (by decide) (by decide) (by decide) (by decide)).2.2
      [⟨1, "A", some 10⟩, ⟨2, "B", some 25⟩] (by decide) (by decide) (by decide)⟩

/-- C1: when every prior validation passes and the items resolve to a
basket of sellable products, the server-recomputed `totalBasket` is
compared to the claimed total with exact equality: a mismatch fails with
BadRequest and persists nothing; a match persists exactly one new order
whose `totalAmount` equals the recomputed total. -/
theorem claim_C1_confirmed (uid : Nat) (req : OrderReq) (st : Store)
    (items : List Nat) (basket : List Product) (phone : String)
    (hitems : req.items = some items)
    (hlen : ¬(items.length = 0 ∨ items.length > 50))
    (hphone : req.phone = some phone)
    (hplen : ¬ (jsTrim phone).length > 20)
    (hpre : phoneRegexTest (jsTrim phone) = true)
    (hcount : (findProductsIn st.products items).length = items.length)
    (hres : resolveBasket items (findProductsIn st.products items) = Except.ok basket) :
    (req.total ≠ basketTotal basket →
      (createOrder uid req st).1 = Except.error (Err.badRequest "Неверная сумма заказа") ∧
        (createOrder uid req st).2 = st) ∧
    (req.total = basketTotal basket →
      ∃ o, (createOrder uid req st).1 = Except.ok o ∧
        o.totalAmount = basketTotal basket ∧ o.products = items ∧
        (createOrder uid req st).2 =
          { st with orders := st.orders ++ [o], nextOrderNumber := st.nextOrderNumber + 1 }) := by
  have hnotlen : ¬ (findProductsIn st.products items).length ≠ items.length :=
    not_not_intro hcount
  simp only [createOrder, hitems, hphone, if_neg hlen, if_neg hplen, hpre,
    Bool.not_eq_true, not_false_eq_true, if_true, if_neg hnotlen, hres]
  constructor
  · intro hne
    rw [if_pos (Ne.symm hne)]
    exact ⟨rfl, rfl⟩
  · intro heq
    rw [if_neg (not_not_intro heq.symm)]
    exact ⟨_, rfl, heq, rfl, rfl⟩

/-- C1 witness: catalog prices {10, 25}; claimed total 34 fails with the
order-sum BadRequest and persists nothing; claimed total 35 succeeds and
the persisted totalAmount is 35. -/
theorem claim_C1_witness :
    ((createOrder 9 (reqItems12 34) catalogStore).1 =
        Except.error (Err.badRequest "Неверная сумма заказа") ∧
      (createOrder 9 (reqItems12 34) catalogStore).2 = catalogStore) ∧
    (∃ o, (createOrder 9 (reqItems12 35) catalogStore).1 = Except.ok o ∧
      o.totalAmount = basketTotal [⟨1, "A", some 10⟩, ⟨2, "B", some 25⟩] ∧
      o.products = [1, 2] ∧
      (createOrder 9 (reqItems12 35) catalogStore).2 =
        { catalogStore with orders := catalogStore.orders ++ [o], nextOrderNumber := catalogStore.nextOrderNumber + 1 }) :=
  ⟨(claim_C1_confirmed 9 (reqItems12 34) catalogStore [1, 2]
      [⟨1, "A", some 10⟩, ⟨2, "B", some 25⟩] "+1234567890"
      (by decide) (by decide) (by decide) (by decide) (by decide) (by decide)
      (by decide)).1 (by decide),
    (claim_C1_confirmed 9 (reqItems12 35) catalogStore [1, 2]
      [⟨1, "A", some 10⟩, ⟨2, "B", some 25⟩] "+1234567890"
      (by decide) (by decide) (by decide) (by decide) (by decide) (by decide)
      (by decide)).2 (by decide)⟩

/-- C3 counterexample: `getOrdersCurrentUser` is a list endpoint, yet for
`limit=100` it uses and reports page size 100, not the claimed hard
ceiling of 10. -/
theorem claim_C3_counterexample :
    getOrdersCurrentUser_pageSize (QueryNum.num 100) = some 100 ∧
      getOrdersCurrentUser_pageSize (QueryNum.num 100) ≠ some 10 := by
  refine ⟨rfl, ?_⟩
  intro h
  simp only [getOrdersCurrentUser_pageSize, Option.some.injEq] at h
  norm_num at h

/-- C3 (amended): `getOrders` and `getCustomers` clamp the limit exactly as
claimed (≤0, non-numeric, or >10 gives 10; a value in (0,10] is floored),
but `getOrdersCurrentUser` performs no clamping at all: it uses the raw
`Number(limit)` (default 5). -/
theorem claim_C3_amended (q : ℚ) :
    (getOrders_safeLimit QueryNum.missing = 10 ∧
      getOrders_safeLimit QueryNum.nonNumeric = 10 ∧
      getCustomers_safeLimit QueryNum.missing = 10 ∧
      getCustomers_safeLimit QueryNum.nonNumeric = 10) ∧
    (q ≤ 0 ∨ 10 < q →
      getOrders_safeLimit (QueryNum.num q) = 10 ∧
        getCustomers_safeLimit (QueryNum.num q) = 10) ∧
    (0 < q → q ≤ 10 →
      getOrders_safeLimit (QueryNum.num q) = ⌊q⌋ ∧
        getCustomers_safeLimit (QueryNum.num q) = ⌊q⌋) ∧
    getOrdersCurrentUser_pageSize (QueryNum.num q) = some q ∧
    getOrdersCurrentUser_pageSize QueryNum.missing = some 5 := by
  refine ⟨⟨rfl, rfl, rfl, rfl⟩, ?_, ?_, rfl, rfl⟩
  · rintro (hq | hq)
    · have hnot : ¬ 0 < q := not_lt.mpr hq
      simp [getOrders_safeLimit, getCustomers_safeLimit, hnot]
    · have hpos : 0 < q := lt_trans (by norm_num) hq
      have hfloor : (10 : ℤ) ≤ ⌊q⌋ := by
        rw [Int.le_floor]; exact_mod_cast hq.le
      simp [getOrders_safeLimit, getCustomers_safeLimit, hpos,
        min_eq_right hfloor]
  · intro hpos hle
    have hfloor : ⌊q⌋ ≤ (10 : ℤ) := by
      calc ⌊q⌋ ≤ ⌊(10 : ℚ)⌋ := Int.floor_le_floor hle
        _ = 10 := by norm_num
    simp [getOrders_safeLimit, getCustomers_safeLimit, hpos,
      min_eq_left hfloor]

/-- C3 witness: the amended statement applied at limit 100. -/
theorem claim_C3_witness :
    ((100 : ℚ) ≤ 0 ∨ (10 : ℚ) < 100) ∧
      getOrders_safeLimit (QueryNum.num 100) = 10 ∧
      getCustomers_safeLimit (QueryNum.num 100) = 10 := by
  have h := (claim_C3_amended 100).2.1 (Or.inr (by norm_num))
  exact ⟨Or.inr (by norm_num), h.1, h.2⟩

/-- C4 counterexample: for `orderDateTo=2023-01-01` in `getOrders` the
bound is midnight of that day (1672531200000 ms), not its last instant, so
a record timestamped 2023-01-01T23:59:59.998Z (1672617599998 ms) is
excluded — contradicting the claim for orderDateTo. -/
theorem claim_C4_counterexample :
    getOrders_orderDateToBound "2023-01-01" = some 1672531200000 ∧
      lteBound 1672617599998 1672531200000 = false := by
  constructor
  · rfl
  · rfl

/-- C4 (amended): the end-of-day adjustment holds for the customers
endpoint's upper bounds (`registrationDateTo`, `lastOrderDateTo`): the
bound is the day's last millisecond, so a record 1 ms before the end of the
day is included and the next day's first instant is excluded.  The orders
endpoint's `orderDateTo` is NOT adjusted: its bound is the day's first
instant, which excludes a record stamped later the same day. -/
theorem claim_C4_amended (s : String) (d : Int) (h : parseDateOnly s = some d) :
    getCustomers_registrationDateToBound s = some (d + 86399999) ∧
    getCustomers_lastOrderDateToBound s = some (d + 86399999) ∧
    lteBound (d + 86399998) (d + 86399999) = true ∧
    lteBound (d + 86400000) (d + 86399999) = false ∧
    getOrders_orderDateToBound s = some d ∧
    lteBound (d + 86399998) d = false := by
  refine ⟨?_, ?_, ?_, ?_, ?_, ?_⟩
  · simp [getCustomers_registrationDateToBound, h, msPerDay]
  · simp [getCustomers_lastOrderDateToBound, h, msPerDay]
  · simp only [lteBound, decide_eq_true_eq]; omega
  · simp only [lteBound, decide_eq_false_iff_not, not_le]; omega
  · simpa [getOrders_orderDateToBound] using h
  · simp only [lteBound, decide_eq_false_iff_not, not_le]; omega

/-- C4 witness: the amended statement applied at the date 2023-01-01. -/
theorem claim_C4_witness :
    parseDateOnly "2023-01-01" = some 1672531200000 ∧
      getCustomers_registrationDateToBound "2023-01-01" =
        some (1672531200000 + 86399999) ∧
      lteBound (1672531200000 + 86399998) (1672531200000 + 86399999) = true := by
  have hp : parseDateOnly "2023-01-01" = some 1672531200000 := rfl
  have h := claim_C4_amended "2023-01-01" 1672531200000 hp
  exact ⟨hp, h.1, h.2.2.1⟩

/-- C8: for an order owned by another customer, `getOrderCurrentUserByNumber`
returns exactly the NotFound error used for a nonexistent order number —
equal to the response from any store lacking that number — and never a
forbidden error. -/
theorem claim_C8_confirmed (db db' : Store) (uid : Nat) (n : Int)
    (o : OrderDoc) (h1 : findOrderByNumber db n = some o)
    (h2 : o.customer ≠ uid) (h3 : findOrderByNumber db' n = none) :
    getOrderCurrentUserByNumber uid n db =
        Except.error (Err.notFound "Заказ по заданному id отсутствует в базе") ∧
      getOrderCurrentUserByNumber uid n db =
        getOrderCurrentUserByNumber uid n db' ∧
      ∀ m, getOrderCurrentUserByNumber uid n db ≠ Except.error (Err.forbidden m) := by
  have hb : getOrderCurrentUserByNumber uid n db =
      Except.error (Err.notFound "Заказ по заданному id отсутствует в базе") := by
    unfold getOrderCurrentUserByNumber
    rw [h1]
    simp [h2]
  have hb' : getOrderCurrentUserByNumber uid n db' =
      Except.error (Err.notFound "Заказ по заданному id отсутствует в базе") := by
    unfold getOrderCurrentUserByNumber
    rw [h3]
  refine ⟨hb, hb.trans hb'.symm, ?_⟩
  intro m hcontra
  rw [hb] at hcontra
  simp at hcontra

/-- C8 witness: a store holding order number 7 owned by user 1, queried by
user 2, against an empty store. -/
theorem claim_C8_witness :
    getOrderCurrentUserByNumber 2 7 storeWithOrder7 =
      Except.error (Err.notFound "Заказ по заданному id отсутствует в базе") :=
  (claim_C8_confirmed storeWithOrder7 emptyStore 2 7 order7
    (by decide) (by decide) (by decide)).1

/-- C9: on an id matching no user, `getCustomerById` answers 200 with a
null body, while `updateCustomer` and `deleteCustomer` answer NotFound —
no shared not-found policy. -/
theorem claim_C9_confirmed (db : Store) (id : Nat) (nm : Option String)
    (h : findUserById db id = none) :
    getCustomerById id db = CustomerRes.ok 200 none ∧
      (updateCustomer id nm db).1 =
        CustomerRes.err (Err.notFound "Пользователь по заданному id отсутствует в базе") ∧
      (deleteCustomer id db).1 =
        CustomerRes.err (Err.notFound "Пользователь по заданному id отсутствует в базе") := by
  refine ⟨?_, ?_, ?_⟩
  · unfold getCustomerById
    rw [h]
  · unfold updateCustomer
    rw [h]
  · unfold deleteCustomer
    rw [h]

/-- C9 witness: the empty store at id 0. -/
theorem claim_C9_witness :
    getCustomerById 0 emptyStore = CustomerRes.ok 200 none :=
  (claim_C9_confirmed emptyStore 0 none (by decide)).1

/-- C10: a file of at most 2048 bytes (the code's `MIN_FILE_SIZE_STRICT` is
2049) is rejected with BadRequest, its temp file unlinked, and the
image-metadata inspection never reached. -/
theorem claim_C10_confirmed (f : UploadedFile)
    (metaOf : String → Option (Option Nat × Option Nat)) (base : String)
    (fs : FsState) (n : Nat) (hsize : f.size? = some n) (hle : n ≤ 2048)
    (hpath : f.path ≠ "") :
    uploadFile (some f) metaOf base fs =
      (UploadRes.badRequest "Слишком маленький файл",
        { tempFiles := fs.tempFiles.erase f.path }, false) := by
  unfold uploadFile
  have hlt : f.size?.getD 0 < MIN_FILE_SIZE_STRICT := by
    rw [hsize]
    simp only [Option.getD_some, MIN_FILE_SIZE_STRICT, MIN_FILE_SIZE_BYTES]
    omega
  simp [hlt, hpath]

/-- C10 witness: a 2048-byte file is rejected before metadata inspection
and its temp file is removed. -/
theorem claim_C10_witness :
    uploadFile (some file2048) (fun _ => none) "" { tempFiles := ["temp/x"] } =
      (UploadRes.badRequest "Слишком маленький файл",
        { tempFiles := (["temp/x"] : List String).erase "temp/x" }, false) :=
  claim_C10_confirmed file2048 (fun _ => none) "" { tempFiles := ["temp/x"] }
    2048 (by decide) (by decide) (by decide)

end BadServer
